import Mathlib

/-!
Shallow embedding of `rdagent/utils/snowflake_conn.py` and proofs about it.

The module under verification has three functions:

  * `_env(name)` — `os.environ.get(name) or os.environ.get(name.lower())`
  * `get_snowflake_conn()` — builds the keyword arguments for the external
    driver's `connect` from environment variables, raising `RuntimeError`
    when the driver is missing, when `SNOW_USER`/`SNOW_ACCOUNT` do not
    resolve to a truthy value, or when neither `SNOW_PWD` nor
    `SNOW_PRIVATE_KEY` does.
  * `run_query(query)` — acquires a connection, a cursor, executes the
    query, fetches all rows, and releases cursor then connection through
    nested `try/finally` blocks.

The process environment is modelled as an association list from variable
names to string values.  A successful `get_snowflake_conn` is modelled as
`Except.ok kwargs` where `kwargs` is the ordered key/value list handed to
the driver's `connect` (Python keeps dict insertion order, and all keys
inserted here are distinct); every `raise` is modelled as `Except.error`,
on which path `connect` is never invoked.  The external driver used by
`run_query` is modelled by a `Driver` record saying which of its calls
raises; `run_query` returns the trace of driver calls it performed plus
its outcome.
-/

/-- The process environment, mirroring `os.environ`: an association list
from variable names to string values (first binding wins, as a map). -/
abbrev Env := List (String × String)

/-- `os.environ.get(n)`: the value bound to `n`, or `none` when unset. -/
def envGet (e : Env) (n : String) : Option String :=
  (e.find? (fun p => p.1 == n)).map (fun p => p.2)

/-- Python truthiness of an `Optional[str]`: `None` and the empty string
are falsy, every other string is truthy. -/
def truthy : Option String → Bool
  | none => false
  | some s => if s = "" then false else true

/-- Python `a or b` on `Optional[str]` values: returns `a` when `a` is
truthy (a non-empty string), otherwise returns `b`. -/
def pyOr (a b : Option String) : Option String :=
  match a with
  | some s => if s = "" then b else some s
  | none => b

/-- ASCII lower-casing of a variable name, modelling Python `str.lower()`
on the ASCII names used by this module (character-wise lower-casing). -/
def lowerName (s : String) : String :=
  String.mk (s.data.map Char.toLower)

/-- `_env` from the source: `os.environ.get(name) or
os.environ.get(name.lower())`. -/
def _env (e : Env) (name : String) : Option String :=
  pyOr (envGet e name) (envGet e (lowerName name))

/-- A value appearing in the keyword arguments handed to the driver's
`connect`: either a plain string, or the private-key object obtained by
parsing a PEM string.  PEM parsing by the external `cryptography` library
is modelled as succeeding and is represented by the PEM text it was given
(the claims under verification only concern which entries are present). -/
inductive KwVal where
  | str (s : String)
  | pkey (pem : String)
  deriving DecidableEq

/-- The ordered keyword-argument list handed to the driver's `connect`
(Python builds a dict with insertion order; all keys are distinct). -/
abbrev Kwargs := List (String × KwVal)

/-- The `RuntimeError`s `get_snowflake_conn` can raise. -/
inductive SnowErr where
  /-- Raised as "snowflake-connector-python is not installed". -/
  | driverMissing
  /-- Raised as "Missing SNOW_USER or SNOW_ACCOUNT environment variables". -/
  | missingUserOrAccount
  /-- Raised as "Provide SNOW_PWD or SNOW_PRIVATE_KEY for authentication". -/
  | noAuthSecret
  deriving DecidableEq

deriving instance DecidableEq for Except

/-- The four optional configuration variables, in the order the source
iterates over them. -/
def snowOptionals : List String :=
  ["SNOW_WAREHOUSE", "SNOW_DATABASE", "SNOW_SCHEMA", "SNOW_ROLE"]

/-- The dict key an optional variable is stored under:
`opt.split("SNOW_")[1].lower()` in the source, i.e. the name with its
5-character `SNOW_` marker removed, lower-cased (every name in
`snowOptionals` starts with `SNOW_`). -/
def optKey (opt : String) : String :=
  lowerName (String.mk (opt.data.drop 5))

/-- One iteration of the source's `for opt in (...)` loop: when `_env opt`
is truthy, append the optional under its `optKey` to the dict being
built. -/
def addOptional (e : Env) (acc : Kwargs) (opt : String) : Kwargs :=
  let v := _env e opt
  if truthy v then acc ++ [(optKey opt, KwVal.str (v.getD ""))] else acc

/-- The optional entries added to `conn_kwargs` by the loop. -/
def optionalKwargs (e : Env) : Kwargs :=
  snowOptionals.foldl (addOptional e) []

/-- The `user`/`account` entries `conn_kwargs` starts from (only reached
when both resolved truthy, so `getD ""` never supplies the default). -/
def baseKw (e : Env) : Kwargs :=
  [("user", KwVal.str ((_env e "SNOW_USER").getD "")),
   ("account", KwVal.str ((_env e "SNOW_ACCOUNT").getD ""))]

/-- `get_snowflake_conn` from the source, up to the call of the driver's
`connect`: `Except.ok kwargs` means `connect(**kwargs)` is invoked,
`Except.error` means the corresponding `RuntimeError` is raised and
`connect` is never invoked.  `driverAvailable` models whether the
`import snowflake.connector` at module load succeeded (`snowflake is
None` in the source when it did not). -/
def get_snowflake_conn (driverAvailable : Bool) (e : Env) : Except SnowErr Kwargs :=
  if !driverAvailable then Except.error SnowErr.driverMissing
  else
    let user := _env e "SNOW_USER"
    let account := _env e "SNOW_ACCOUNT"
    let password := _env e "SNOW_PWD"
    let private_key_pem := _env e "SNOW_PRIVATE_KEY"
    if !truthy user || !truthy account then Except.error SnowErr.missingUserOrAccount
    else
      let conn_kwargs : Kwargs := baseKw e ++ optionalKwargs e
      if truthy private_key_pem then
        Except.ok (conn_kwargs ++ [("private_key", KwVal.pkey (private_key_pem.getD ""))])
      else if truthy password then
        Except.ok (conn_kwargs ++ [("password", KwVal.str (password.getD ""))])
      else Except.error SnowErr.noAuthSecret

/-- A call `run_query` makes on the driver objects: `connect` on the
driver module, `cursor()` on the connection, `execute(q)`, `fetchall()`
and `close()` on the cursor, and `close()` on the connection. -/
inductive Ev where
  | connect
  | cursorAcq
  | execute (q : String)
  | fetchall
  | curClose
  | connClose
  deriving DecidableEq

/-- A mocked driver for `run_query`, recording which of its calls raises
(the mock records each call before raising; `close` never raises). -/
structure Driver where
  cursorFails : Bool
  executeFails : Bool
  fetchallFails : Bool

/-- The outcome of `run_query`: a normal return, a configuration error
raised by `get_snowflake_conn` before any driver-object call, or an
exception propagated from the named driver call. -/
inductive QOutcome where
  | success
  | connError (er : SnowErr)
  | stepError (ev : Ev)
  deriving DecidableEq

/-- The body of the inner `try` of `run_query`: `cur.execute(query)` then
`return cur.fetchall()`.  Returns the calls made and the call whose
exception escapes the body, if any. -/
def execFetch (d : Driver) (q : String) : List Ev × Option Ev :=
  if d.executeFails then ([Ev.execute q], some (Ev.execute q))
  else if d.fetchallFails then ([Ev.execute q, Ev.fetchall], some Ev.fetchall)
  else ([Ev.execute q, Ev.fetchall], none)

/-- The body of the outer `try` of `run_query`: `cur = conn.cursor()`,
then the inner `try ... finally: cur.close()`.  The `finally` appends
`cur.close()` whether the inner body returned or raised; when `cursor()`
itself raises, the inner block is never entered and no `cur.close()`
happens. -/
def cursorScope (d : Driver) (q : String) : List Ev × Option Ev :=
  if d.cursorFails then ([Ev.cursorAcq], some Ev.cursorAcq)
  else
    let inner := execFetch d q
    (Ev.cursorAcq :: inner.1 ++ [Ev.curClose], inner.2)

/-- `run_query` from the source: `conn = get_snowflake_conn()` (on error,
no driver-object call was made), then the outer `try ... finally:
conn.close()`, whose `finally` appends `conn.close()` on both the normal
and the exceptional exit.  Returns the trace of driver calls and the
outcome. -/
def run_query (d : Driver) (driverAvailable : Bool) (e : Env) (query : String) :
    List Ev × QOutcome :=
  match get_snowflake_conn driverAvailable e with
  | Except.error er => ([], QOutcome.connError er)
  | Except.ok _ =>
    let body := cursorScope d query
    (Ev.connect :: body.1 ++ [Ev.connClose],
      match body.2 with
      | none => QOutcome.success
      | some ev => QOutcome.stepError ev)

/-- Is an event one of the two `close` calls? -/
def isClose : Ev → Bool
  | Ev.curClose => true
  | Ev.connClose => true
  | _ => false

/-- Is an event an `execute` call? -/
def isExec : Ev → Bool
  | Ev.execute _ => true
  | _ => false

/-- Is an event the cursor's `close` call? -/
def isCurClose : Ev → Bool
  | Ev.curClose => true
  | _ => false

/-- Is an event the connection's `close` call? -/
def isConnClose : Ev → Bool
  | Ev.connClose => true
  | _ => false

/-!  Helper lemmas shared by the claim theorems. -/

/-- Case analysis of `run_query` once `get_snowflake_conn` succeeds: the
trace and outcome for each combination of failing driver calls. -/
theorem run_query_ok (d : Driver) (a : Bool) (e : Env) (q : String) (kw : Kwargs)
    (h : get_snowflake_conn a e = Except.ok kw) :
    run_query d a e q =
      if d.cursorFails then
        ([Ev.connect, Ev.cursorAcq, Ev.connClose], QOutcome.stepError Ev.cursorAcq)
      else if d.executeFails then
        ([Ev.connect, Ev.cursorAcq, Ev.execute q, Ev.curClose, Ev.connClose],
          QOutcome.stepError (Ev.execute q))
      else if d.fetchallFails then
        ([Ev.connect, Ev.cursorAcq, Ev.execute q, Ev.fetchall, Ev.curClose, Ev.connClose],
          QOutcome.stepError Ev.fetchall)
      else
        ([Ev.connect, Ev.cursorAcq, Ev.execute q, Ev.fetchall, Ev.curClose, Ev.connClose],
          QOutcome.success) := by
  cases hc : d.cursorFails <;> cases he : d.executeFails <;> cases hf : d.fetchallFails <;>
    simp [run_query, h, cursorScope, execFetch, hc, he, hf]

/-- The environment of the spec's worked example. -/
def envC6 : Env := [("SNOW_USER", "alice"), ("SNOW_ACCOUNT", "xy123"), ("SNOW_PWD", "secret")]

/-- C6: in the environment with exactly `SNOW_USER=alice`,
`SNOW_ACCOUNT=xy123` and `SNOW_PWD=secret` set, `get_snowflake_conn`
calls the driver's `connect` with exactly the keyword arguments
`user="alice"`, `account="xy123"`, `password="secret"` and no others. -/
theorem C6_example_env_exact_kwargs :
    get_snowflake_conn true envC6 =
      Except.ok [("user", KwVal.str "alice"), ("account", KwVal.str "xy123"),
        ("password", KwVal.str "secret")] := by decide

/-- C8: when the driver library is unavailable, `get_snowflake_conn`
fails with the missing-driver error whatever the environment contains
(the result is the same constant for every environment, so no credential
read can influence it), and `run_query` propagates that error to its
caller having made no driver call at all (empty trace, hence no retry). -/
theorem C8_driver_unavailable_fails_fast (d : Driver) (e : Env) (q : String) :
    get_snowflake_conn false e = Except.error SnowErr.driverMissing ∧
    run_query d false e q = ([], QOutcome.connError SnowErr.driverMissing) :=
  ⟨rfl, rfl⟩

/-- C1: whenever `SNOW_USER` or `SNOW_ACCOUNT` does not resolve to a
truthy value (unset, or empty), or neither `SNOW_PWD` nor
`SNOW_PRIVATE_KEY` does, `get_snowflake_conn` returns a configuration
error, so the driver's `connect` is never invoked (only the `Except.ok`
result reaches `connect`). -/
theorem C1_missing_required_config_errors (a : Bool) (e : Env)
    (h : truthy (_env e "SNOW_USER") = false ∨ truthy (_env e "SNOW_ACCOUNT") = false ∨
      (truthy (_env e "SNOW_PWD") = false ∧ truthy (_env e "SNOW_PRIVATE_KEY") = false)) :
    ∃ er, get_snowflake_conn a e = Except.error er := by
  cases a with
  | false => exact ⟨SnowErr.driverMissing, rfl⟩
  | true =>
    rcases h with h | h | ⟨h1, h2⟩
    · exact ⟨SnowErr.missingUserOrAccount, by simp [get_snowflake_conn, h]⟩
    · exact ⟨SnowErr.missingUserOrAccount, by simp [get_snowflake_conn, h]⟩
    · cases hu : truthy (_env e "SNOW_USER") with
      | false => exact ⟨SnowErr.missingUserOrAccount, by simp [get_snowflake_conn, hu]⟩
      | true =>
        cases ha : truthy (_env e "SNOW_ACCOUNT") with
        | false => exact ⟨SnowErr.missingUserOrAccount, by simp [get_snowflake_conn, hu, ha]⟩
        | true => exact ⟨SnowErr.noAuthSecret, by simp [get_snowflake_conn, hu, ha, h1, h2]⟩

/-- Witness for C1 at the empty environment. -/
theorem C1_missing_required_config_errors_witness :
    ∃ er, get_snowflake_conn true [] = Except.error er :=
  C1_missing_required_config_errors true [] (Or.inl (by decide))

/-- C2: once a connection and a cursor are obtained, `run_query` performs
exactly one `execute`, one cursor `close` and one connection `close`,
whether `execute` and `fetchall` succeed or raise. -/
theorem C2_one_execute_one_close_each (d : Driver) (a : Bool) (e : Env) (q : String)
    (kw : Kwargs) (hok : get_snowflake_conn a e = Except.ok kw)
    (hcur : d.cursorFails = false) :
    (run_query d a e q).1.countP isExec = 1 ∧
    (run_query d a e q).1.countP isCurClose = 1 ∧
    (run_query d a e q).1.countP isConnClose = 1 := by
  rw [run_query_ok d a e q kw hok]
  cases he : d.executeFails <;> cases hf : d.fetchallFails <;>
    simp [hcur, he, hf, isExec, isCurClose, isConnClose, List.countP_cons]

/-- Witness for C2: a driver whose `execute` raises, in the example
environment. -/
theorem C2_one_execute_one_close_each_witness :
    (run_query ⟨false, true, false⟩ true envC6 "SELECT 1").1.countP isExec = 1 ∧
    (run_query ⟨false, true, false⟩ true envC6 "SELECT 1").1.countP isCurClose = 1 ∧
    (run_query ⟨false, true, false⟩ true envC6 "SELECT 1").1.countP isConnClose = 1 :=
  C2_one_execute_one_close_each ⟨false, true, false⟩ true envC6 "SELECT 1"
    [("user", KwVal.str "alice"), ("account", KwVal.str "xy123"),
      ("password", KwVal.str "secret")] (by decide) rfl

/-- C7: on every path of `run_query`, the `close` calls in the trace form
a subsequence of cursor-close followed by connection-close — so a cursor
`close`, when present, always precedes the connection `close`, and each
happens at most once; moreover whenever a connection was opened it is
also closed. -/
theorem C7_cursor_close_precedes_conn_close (d : Driver) (a : Bool) (e : Env) (q : String) :
    ((run_query d a e q).1.filter isClose).Sublist [Ev.curClose, Ev.connClose] ∧
    (Ev.connect ∈ (run_query d a e q).1 → Ev.connClose ∈ (run_query d a e q).1) := by
  cases hg : get_snowflake_conn a e with
  | error er => simp [run_query, hg]
  | ok kw =>
    rw [run_query_ok d a e q kw hg]
    cases hc : d.cursorFails <;> cases he : d.executeFails <;> cases hf : d.fetchallFails <;>
      constructor <;> simp [isClose, List.filter]

/-- C10: when `conn.cursor()` itself raises, `run_query` still closes the
connection before propagating the exception (no cursor close exists to
perform); and when `fetchall` raises, the cursor is closed first and the
connection after, before the exception propagates. -/
theorem C10_release_on_cursor_and_fetch_failures (d : Driver) (a : Bool) (e : Env)
    (q : String) (kw : Kwargs) (hok : get_snowflake_conn a e = Except.ok kw) :
    (d.cursorFails = true →
      run_query d a e q =
        ([Ev.connect, Ev.cursorAcq, Ev.connClose], QOutcome.stepError Ev.cursorAcq)) ∧
    (d.cursorFails = false → d.executeFails = false → d.fetchallFails = true →
      run_query d a e q =
        ([Ev.connect, Ev.cursorAcq, Ev.execute q, Ev.fetchall, Ev.curClose, Ev.connClose],
          QOutcome.stepError Ev.fetchall)) := by
  constructor
  · intro hc
    rw [run_query_ok d a e q kw hok]
    simp [hc]
  · intro hc he hf
    rw [run_query_ok d a e q kw hok]
    simp [hc, he, hf]

/-- Witness for C10: a driver whose `cursor()` raises, in the example
environment. -/
theorem C10_release_on_cursor_and_fetch_failures_witness :
    run_query ⟨true, false, false⟩ true envC6 "SELECT 1" =
      ([Ev.connect, Ev.cursorAcq, Ev.connClose], QOutcome.stepError Ev.cursorAcq) :=
  (C10_release_on_cursor_and_fetch_failures ⟨true, false, false⟩ true envC6 "SELECT 1"
    [("user", KwVal.str "alice"), ("account", KwVal.str "xy123"),
      ("password", KwVal.str "secret")] (by decide)).1 rfl

/-- The dict key of `SNOW_WAREHOUSE`. -/
theorem optKey_warehouse : optKey "SNOW_WAREHOUSE" = "warehouse" := by decide

/-- The dict key of `SNOW_DATABASE`. -/
theorem optKey_database : optKey "SNOW_DATABASE" = "database" := by decide

/-- The dict key of `SNOW_SCHEMA`. -/
theorem optKey_schema : optKey "SNOW_SCHEMA" = "schema" := by decide

/-- The dict key of `SNOW_ROLE`. -/
theorem optKey_role : optKey "SNOW_ROLE" = "role" := by decide

/-- The keys the optional loop adds, one per truthy optional variable, in
loop order. -/
theorem optionalKwargs_keys (e : Env) :
    (optionalKwargs e).map Prod.fst =
      (if truthy (_env e "SNOW_WAREHOUSE") = true then ["warehouse"] else []) ++
      (if truthy (_env e "SNOW_DATABASE") = true then ["database"] else []) ++
      (if truthy (_env e "SNOW_SCHEMA") = true then ["schema"] else []) ++
      (if truthy (_env e "SNOW_ROLE") = true then ["role"] else []) := by
  cases h1 : truthy (_env e "SNOW_WAREHOUSE") <;>
  cases h2 : truthy (_env e "SNOW_DATABASE") <;>
  cases h3 : truthy (_env e "SNOW_SCHEMA") <;>
  cases h4 : truthy (_env e "SNOW_ROLE") <;>
    simp [optionalKwargs, snowOptionals, addOptional, h1, h2, h3, h4,
      optKey_warehouse, optKey_database, optKey_schema, optKey_role]

/-- Membership in the optional keys, as a disjunction over the four
optional variables. -/
theorem mem_optional_keys (e : Env) (k : String) :
    k ∈ (optionalKwargs e).map Prod.fst ↔
      (k = "warehouse" ∧ truthy (_env e "SNOW_WAREHOUSE") = true) ∨
      (k = "database" ∧ truthy (_env e "SNOW_DATABASE") = true) ∨
      (k = "schema" ∧ truthy (_env e "SNOW_SCHEMA") = true) ∨
      (k = "role" ∧ truthy (_env e "SNOW_ROLE") = true) := by
  rw [optionalKwargs_keys]
  cases h1 : truthy (_env e "SNOW_WAREHOUSE") <;>
  cases h2 : truthy (_env e "SNOW_DATABASE") <;>
  cases h3 : truthy (_env e "SNOW_SCHEMA") <;>
  cases h4 : truthy (_env e "SNOW_ROLE") <;>
    simp [h1, h2, h3, h4]

/-- Membership of an entry with a given key among the optional entries,
as a disjunction over the four optional variables (the existential shape
`simp` produces from key membership). -/
theorem mem_optional_entries (e : Env) (k : String) :
    (∃ x, (k, x) ∈ optionalKwargs e) ↔
      (k = "warehouse" ∧ truthy (_env e "SNOW_WAREHOUSE") = true) ∨
      (k = "database" ∧ truthy (_env e "SNOW_DATABASE") = true) ∨
      (k = "schema" ∧ truthy (_env e "SNOW_SCHEMA") = true) ∨
      (k = "role" ∧ truthy (_env e "SNOW_ROLE") = true) := by
  cases h1 : truthy (_env e "SNOW_WAREHOUSE") <;>
  cases h2 : truthy (_env e "SNOW_DATABASE") <;>
  cases h3 : truthy (_env e "SNOW_SCHEMA") <;>
  cases h4 : truthy (_env e "SNOW_ROLE") <;>
    simp [optionalKwargs, snowOptionals, addOptional, h1, h2, h3, h4,
      optKey_warehouse, optKey_database, optKey_schema, optKey_role,
      exists_or, exists_and_left, exists_eq]

/-- A successful `get_snowflake_conn` returns the base entries, then the
optional entries, then exactly one authentication entry: the private key
when `SNOW_PRIVATE_KEY` resolved truthy, otherwise the password. -/
theorem get_conn_ok_shape (e : Env) (kw : Kwargs)
    (hok : get_snowflake_conn true e = Except.ok kw) :
    (truthy (_env e "SNOW_PRIVATE_KEY") = true ∧
      kw = baseKw e ++ optionalKwargs e ++
        [("private_key", KwVal.pkey ((_env e "SNOW_PRIVATE_KEY").getD ""))]) ∨
    (truthy (_env e "SNOW_PRIVATE_KEY") = false ∧ truthy (_env e "SNOW_PWD") = true ∧
      kw = baseKw e ++ optionalKwargs e ++
        [("password", KwVal.str ((_env e "SNOW_PWD").getD ""))]) := by
  cases hu : truthy (_env e "SNOW_USER") <;> cases ha : truthy (_env e "SNOW_ACCOUNT") <;>
    cases hk : truthy (_env e "SNOW_PRIVATE_KEY") <;> cases hp : truthy (_env e "SNOW_PWD") <;>
    simp [get_snowflake_conn, hu, ha, hk, hp] at hok <;> simp [hok, hk, hp]

/-- An environment refuting C3 as stated: the private-key variable is set
(via its lower-cased name) to the empty string, so it is non-absent, yet
the factory authenticates with the password. -/
def envC3 : Env :=
  [("SNOW_USER", "u"), ("SNOW_ACCOUNT", "a"), ("SNOW_PWD", "p"), ("snow_private_key", "")]

/-- C3 counterexample: in `envC3` both `SNOW_PRIVATE_KEY` and `SNOW_PWD`
resolve to non-absent values, yet the keyword arguments passed to
`connect` contain a `password` entry and no `private_key` entry —
refuting the claim that non-absence of both suffices for key-pair
authentication. -/
theorem C3_counterexample :
    (_env envC3 "SNOW_PRIVATE_KEY").isSome = true ∧
    (_env envC3 "SNOW_PWD").isSome = true ∧
    get_snowflake_conn true envC3 =
      Except.ok [("user", KwVal.str "u"), ("account", KwVal.str "a"),
        ("password", KwVal.str "p")] ∧
    ¬ "private_key" ∈ ([("user", KwVal.str "u"), ("account", KwVal.str "a"),
        ("password", KwVal.str "p")] : Kwargs).map Prod.fst ∧
    "password" ∈ ([("user", KwVal.str "u"), ("account", KwVal.str "a"),
        ("password", KwVal.str "p")] : Kwargs).map Prod.fst := by decide

/-- C3 (amended): when `SNOW_PRIVATE_KEY` resolves to a truthy (present
and non-empty) value, a successful `get_snowflake_conn` passes a
`private_key` entry to `connect` and no `password` entry, whatever
`SNOW_PWD` holds — key-pair authentication takes precedence. -/
theorem C3_keypair_precedence (e : Env) (kw : Kwargs)
    (hkey : truthy (_env e "SNOW_PRIVATE_KEY") = true)
    (hok : get_snowflake_conn true e = Except.ok kw) :
    ("private_key", KwVal.pkey ((_env e "SNOW_PRIVATE_KEY").getD "")) ∈ kw ∧
    ¬ "password" ∈ kw.map Prod.fst := by
  rcases get_conn_ok_shape e kw hok with ⟨_, rfl⟩ | ⟨hk, _, _⟩
  · constructor
    · simp
    · simp [baseKw, mem_optional_entries]
  · simp [hkey] at hk

/-- Witness for C3 (amended): both secrets set and non-empty. -/
theorem C3_keypair_precedence_witness :
    ("private_key", KwVal.pkey ((_env [("SNOW_USER", "u"), ("SNOW_ACCOUNT", "a"),
        ("SNOW_PWD", "p"), ("SNOW_PRIVATE_KEY", "PEM")] "SNOW_PRIVATE_KEY").getD "")) ∈
      ([("user", KwVal.str "u"), ("account", KwVal.str "a"),
        ("private_key", KwVal.pkey "PEM")] : Kwargs) ∧
    ¬ "password" ∈ ([("user", KwVal.str "u"), ("account", KwVal.str "a"),
        ("private_key", KwVal.pkey "PEM")] : Kwargs).map Prod.fst :=
  C3_keypair_precedence
    [("SNOW_USER", "u"), ("SNOW_ACCOUNT", "a"), ("SNOW_PWD", "p"), ("SNOW_PRIVATE_KEY", "PEM")]
    [("user", KwVal.str "u"), ("account", KwVal.str "a"), ("private_key", KwVal.pkey "PEM")]
    (by decide) (by decide)

/-- An environment refuting C4 as stated: the exact-case name is set (to
the empty string) and the lower-cased name is set to `"v"`. -/
def envC4 : Env := [("NAME", ""), ("name", "v")]

/-- C4 counterexample: in `envC4` both the exact-case and the lower-cased
variables are set, yet `_env` returns the lower-cased variable's value,
not the exact-case one — the fallback fires although the exact-case name
is present in the environment. -/
theorem C4_counterexample :
    envGet envC4 "NAME" = some "" ∧ envGet envC4 (lowerName "NAME") = some "v" ∧
    _env envC4 "NAME" = some "v" ∧ ¬ _env envC4 "NAME" = some "" := by decide

/-- C4 (amended): `_env` looks the key up by its exact given name and
falls back to the lower-cased name exactly when the exact-case name is
absent or set to the empty string; when the exact-case name resolves to a
non-empty value it takes precedence; and a key set via only one of the
two forms, to a non-empty value, yields that value either way. -/
theorem C4_lookup_order (e : Env) (n v : String) :
    (truthy (envGet e n) = true → _env e n = envGet e n) ∧
    (envGet e n = none ∨ envGet e n = some "" → _env e n = envGet e (lowerName n)) ∧
    (¬ v = "" → _env [(n, v)] n = some v ∧ _env [(lowerName n, v)] n = some v) := by
  refine ⟨?_, ?_, ?_⟩
  · intro h
    cases hg : envGet e n with
    | none => rw [hg] at h; simp [truthy] at h
    | some s =>
      rw [hg] at h
      by_cases hs : s = ""
      · rw [hs] at h; simp [truthy] at h
      · simp [_env, pyOr, hg, hs]
  · intro h
    rcases h with h | h <;> simp [_env, pyOr, h]
  · intro hv
    constructor
    · simp [_env, envGet, pyOr, List.find?, hv]
    · by_cases hb : (lowerName n == n) = true
      · simp [_env, envGet, pyOr, List.find?, hb, hv]
      · simp only [Bool.not_eq_true] at hb
        simp [_env, envGet, pyOr, List.find?, hb, hv]

/-- Witness for C4 (amended), at the key `"NAME"` and value `"v"`. -/
theorem C4_lookup_order_witness :
    _env [("NAME", "v")] "NAME" = some "v" ∧
    _env [(lowerName "NAME", "v")] "NAME" = some "v" :=
  (C4_lookup_order [] "NAME" "v").2.2 (by decide)

/-- The key/truthiness characterisation of the optional entries in a
successful connection request, shared by several claims below. -/
theorem optional_included_iff (e : Env) (kw : Kwargs)
    (hok : get_snowflake_conn true e = Except.ok kw)
    (opt : String) (hopt : opt ∈ snowOptionals) :
    (optKey opt ∈ kw.map Prod.fst ↔ truthy (_env e opt) = true) := by
  simp only [snowOptionals, List.mem_cons, List.not_mem_nil, or_false] at hopt
  rcases get_conn_ok_shape e kw hok with ⟨_, rfl⟩ | ⟨_, _, rfl⟩ <;>
    rcases hopt with rfl | rfl | rfl | rfl <;>
      simp [baseKw, mem_optional_entries, optKey_warehouse, optKey_database,
        optKey_schema, optKey_role]

/-- An environment refuting C5 as stated: the warehouse variable is set
(via its lower-cased name) to the empty string, so it resolves to a
present value, yet no `warehouse` key is passed to `connect`. -/
def envC5 : Env :=
  [("SNOW_USER", "u"), ("SNOW_ACCOUNT", "a"), ("SNOW_PWD", "p"), ("snow_warehouse", "")]

/-- C5 counterexample: in `envC5` the warehouse variable resolves to a
present value (the empty string), yet the connection request omits the
`warehouse` key — refuting the claimed "present if and only if included". -/
theorem C5_counterexample :
    (_env envC5 "SNOW_WAREHOUSE").isSome = true ∧
    get_snowflake_conn true envC5 =
      Except.ok [("user", KwVal.str "u"), ("account", KwVal.str "a"),
        ("password", KwVal.str "p")] ∧
    ¬ "warehouse" ∈ ([("user", KwVal.str "u"), ("account", KwVal.str "a"),
        ("password", KwVal.str "p")] : Kwargs).map Prod.fst := by decide

/-- C5 (amended): each optional field (warehouse, database, schema, role)
appears as a key in the `connect` keyword arguments if and only if its
environment variable resolves to a present and non-empty (truthy) value;
in particular an absent optional is omitted entirely and never appears as
an empty string. -/
theorem C5_optionals_included_iff_truthy (e : Env) (kw : Kwargs)
    (hok : get_snowflake_conn true e = Except.ok kw) :
    ∀ opt ∈ snowOptionals, (optKey opt ∈ kw.map Prod.fst ↔ truthy (_env e opt) = true) :=
  fun opt hopt => optional_included_iff e kw hok opt hopt

/-- Witness for C5 (amended): a set warehouse appears, with its truthy
resolution on the right of the iff. -/
theorem C5_optionals_included_iff_truthy_witness :
    ("warehouse" ∈ ([("user", KwVal.str "u"), ("account", KwVal.str "a"),
        ("warehouse", KwVal.str "wh"), ("password", KwVal.str "p")] : Kwargs).map Prod.fst ↔
      truthy (_env [("SNOW_USER", "u"), ("SNOW_ACCOUNT", "a"), ("SNOW_PWD", "p"),
        ("SNOW_WAREHOUSE", "wh")] "SNOW_WAREHOUSE") = true) :=
  C5_optionals_included_iff_truthy
    [("SNOW_USER", "u"), ("SNOW_ACCOUNT", "a"), ("SNOW_PWD", "p"), ("SNOW_WAREHOUSE", "wh")]
    [("user", KwVal.str "u"), ("account", KwVal.str "a"),
      ("warehouse", KwVal.str "wh"), ("password", KwVal.str "p")]
    (by decide) "SNOW_WAREHOUSE" (by decide)

/-- C9: an environment variable resolving to the empty string is treated
as absent throughout: an empty (or unset) resolution of `SNOW_USER` or of
`SNOW_ACCOUNT` triggers the missing-required error; with truthy user and
account, empty-or-unset resolutions of both `SNOW_PWD` and
`SNOW_PRIVATE_KEY` trigger the no-authentication-secret error; an
optional variable resolving to the empty string is omitted from the
`connect` keyword arguments; and an exact-case variable set to the empty
string makes `_env` return the lower-cased variable's lookup instead. -/
theorem C9_empty_string_treated_as_absent :
    (∀ e : Env, (_env e "SNOW_USER" = none ∨ _env e "SNOW_USER" = some "") →
      get_snowflake_conn true e = Except.error SnowErr.missingUserOrAccount) ∧
    (∀ e : Env, (_env e "SNOW_ACCOUNT" = none ∨ _env e "SNOW_ACCOUNT" = some "") →
      get_snowflake_conn true e = Except.error SnowErr.missingUserOrAccount) ∧
    (∀ e : Env, truthy (_env e "SNOW_USER") = true → truthy (_env e "SNOW_ACCOUNT") = true →
      (_env e "SNOW_PWD" = none ∨ _env e "SNOW_PWD" = some "") →
      (_env e "SNOW_PRIVATE_KEY" = none ∨ _env e "SNOW_PRIVATE_KEY" = some "") →
      get_snowflake_conn true e = Except.error SnowErr.noAuthSecret) ∧
    (∀ (e : Env) (kw : Kwargs), get_snowflake_conn true e = Except.ok kw →
      ∀ opt ∈ snowOptionals, _env e opt = some "" → ¬ optKey opt ∈ kw.map Prod.fst) ∧
    (∀ (e : Env) (n : String), envGet e n = some "" → _env e n = envGet e (lowerName n)) := by
  refine ⟨?_, ?_, ?_, ?_, ?_⟩
  · intro e h
    rcases h with h | h <;> simp [get_snowflake_conn, truthy, h]
  · intro e h
    rcases h with h | h <;> simp [get_snowflake_conn, truthy, h]
  · intro e hu ha hp hk
    have hp2 : truthy (_env e "SNOW_PWD") = false := by
      rcases hp with hp | hp <;> simp [truthy, hp]
    have hk2 : truthy (_env e "SNOW_PRIVATE_KEY") = false := by
      rcases hk with hk | hk <;> simp [truthy, hk]
    simp [get_snowflake_conn, hu, ha, hp2, hk2]
  · intro e kw hok opt hopt hv
    have h := optional_included_iff e kw hok opt hopt
    rw [hv] at h
    simp only [truthy] at h
    simp at h
    simp [h]
  · intro e n h
    simp [_env, pyOr, h]

/-- Witness for C9: an exact-case empty `SNOW_USER` yields the
missing-required error. -/
theorem C9_empty_string_treated_as_absent_witness :
    get_snowflake_conn true [("SNOW_USER", ""), ("SNOW_ACCOUNT", "a"), ("SNOW_PWD", "p")] =
      Except.error SnowErr.missingUserOrAccount :=
  C9_empty_string_treated_as_absent.1
    [("SNOW_USER", ""), ("SNOW_ACCOUNT", "a"), ("SNOW_PWD", "p")] (Or.inl (by decide))
